import Mathlib

/-!
Verification of the ComplianceChecker repository (`function_app.py`) against its
natural-language specification.

Shallow embedding conventions:
* Python `float` values are modelled as exact rationals (`ℚ`); the thresholds
  `0.8`, `0.5` and the weights `1.2`, `0.8`, `1.0` appearing in the source are
  exactly representable, and all comparisons the source performs are between
  integer counts and such products, where double rounding never changes the
  outcome.
* Python strings are Lean `String`s; the handful of `str` methods the source
  uses (`strip`, `startswith`, `endswith`, `replace`, `upper`, slicing and
  `join`) are embedded below as `py*` helpers with CPython semantics.
* `json.loads` is external library code (Python stdlib, not part of the
  repository), so it is abstracted as an arbitrary total parser
  `String → Except String PyValue`: it either raises `json.JSONDecodeError`
  (the `.error msg` case) or returns a decoded Python value.
* The external Azure OpenAI judge call is likewise abstracted as a function
  `String → Except String String` from prompt to either a raised exception
  (`.error`) or the returned completion text.
-/

namespace ComplianceChecker

/-! ## Embedded Python string primitives -/

/-- Characters removed by Python `str.strip()` (ASCII whitespace). -/
def pyIsSpace (c : Char) : Bool :=
  c = ' ' || c = '\t' || c = '\n' || c = '\r' || c = '\x0b' || c = '\x0c'

/-- Python `s.strip()`. -/
def pyStrip (s : String) : String :=
  ⟨((s.data.dropWhile pyIsSpace).reverse.dropWhile pyIsSpace).reverse⟩

/-- Python `s.startswith(pre)`. -/
def pyStartswith (s pre : String) : Bool :=
  pre.data.isPrefixOf s.data

/-- Python `s.endswith(suf)`. -/
def pyEndswith (s suf : String) : Bool :=
  suf.data.isSuffixOf s.data

/-- Python `s[:n]` for `n ≥ 0`. -/
def pyTake (n : ℕ) (s : String) : String :=
  ⟨s.data.take n⟩

/-- Python `s[1:-1]`. -/
def pySlice1m1 (s : String) : String :=
  ⟨(s.data.drop 1).dropLast⟩

/-- Python `s.upper()` (the source only applies it to ASCII identifiers;
`Char.toUpper` upcases exactly the ASCII range). -/
def pyUpper (s : String) : String :=
  ⟨s.data.map Char.toUpper⟩

/-- Worker for Python `str.replace`: replaces non-overlapping occurrences of
`old` by `new`, scanning left to right.  The `fuel` argument makes the
recursion structural; callers pass the input length, which always suffices
because each step consumes at least one character, so the `0, l => l`
fallback is dead code. -/
def listReplaceAux (old new : List Char) : ℕ → List Char → List Char
  | _, [] => []
  | 0, l => l
  | fuel + 1, c :: cs =>
    if old ≠ [] ∧ old.isPrefixOf (c :: cs) then
      new ++ listReplaceAux old new fuel (cs.drop (old.length - 1))
    else
      c :: listReplaceAux old new fuel cs

/-- Python `str.replace` on character lists (for nonempty `old`; the source
only replaces the nonempty patterns "```json" and "```"). -/
def listReplace (old new l : List Char) : List Char :=
  listReplaceAux old new l.length l

/-- Python `s.replace(old, new)`. -/
def pyReplace (s old new : String) : String :=
  ⟨listReplace old.data new.data s.data⟩

/-- Substring test (used only to state properties; returns `true` iff `pat`
occurs contiguously in the list). -/
def listContainsSub (pat : List Char) : List Char → Bool
  | [] => pat.isEmpty
  | c :: cs => pat.isPrefixOf (c :: cs) || listContainsSub pat cs

/-- Here `strContains s pat = true` iff `pat` occurs as a contiguous substring. -/
def strContains (s pat : String) : Bool :=
  listContainsSub pat.data s.data

/-- Predicate: `x` occurs as a contiguous substring of `s`. -/
def hasSubstr (s x : String) : Prop :=
  ∃ pre post, s = pre ++ x ++ post

/-! ## Data model -/

/-- The status values of a sub-requirement verdict.  The source represents
them as the strings "Fully Meets", "Partially Meets", "Does Not Meet" and
"Error". -/
inductive Status where
  | fullyMeets
  | partiallyMeets
  | doesNotMeet
  | error
deriving DecidableEq, Repr

/-- A Python value as decoded by `json.loads` (floats modelled as `ℚ`;
dictionary key lists carry pairwise-distinct keys). -/
inductive PyValue where
  | pyNone
  | pyBool (b : Bool)
  | pyInt (n : ℤ)
  | pyFloat (q : ℚ)
  | pyStr (s : String)
  | pyList (xs : List PyValue)
  | pyDict (kvs : List (String × PyValue))

/-- One entry of the `sub_results` list built by `ComplianceChecker`
(`function_app.py` lines 534-543, 553-562, 566-575, 580-589).  `status` and
`confidence` are the normalized fields; `assessment_reasoning` and
`evidence_type_analysis` are stored raw by the source (no `str` coercion),
hence typed `PyValue`. -/
structure SubResult where
  sub_id : String
  title : String
  definition : String
  evidence : String
  status : Status
  confidence : ℚ
  assessment_reasoning : PyValue
  evidence_type_analysis : PyValue

/-! ## Aggregation engine (`function_app.py` lines 303-345, 596-605) -/

/-- Embeds `calculate_overall_control_status` (`function_app.py` lines 303-323).
The float comparisons `fully_meets >= total * 0.8` and
`does_not_meet > total * 0.5` are modelled over `ℚ`. -/
def calculate_overall_control_status (sub_results : List SubResult) : Status :=
  if sub_results.isEmpty then .doesNotMeet
  else
    let valid_results := sub_results.filter (fun r => r.status ≠ .error)
    if valid_results.isEmpty then .doesNotMeet
    else
      let total := valid_results.length
      let fully_meets := (valid_results.filter (fun r => r.status = .fullyMeets)).length
      let does_not_meet := (valid_results.filter (fun r => r.status = .doesNotMeet)).length
      if does_not_meet = 0 ∧ (fully_meets : ℚ) ≥ (total : ℚ) * 0.8 then .fullyMeets
      else if (does_not_meet : ℚ) > (total : ℚ) * 0.5 then .doesNotMeet
      else .partiallyMeets

/-- Embeds `calculate_overall_confidence` (`function_app.py` lines 325-345): the
running `weighted_sum` / `total_weight` loop, then the final division. -/
def calculate_overall_confidence (sub_results : List SubResult) : ℚ :=
  let valid_results := sub_results.filter (fun r => r.status ≠ .error)
  if valid_results.isEmpty then 0
  else
    let acc := valid_results.foldl
      (fun (p : ℚ × ℚ) r =>
        let weight : ℚ :=
          if r.status = .fullyMeets then 1.2
          else if r.status = .doesNotMeet then 0.8
          else 1.0
        (p.1 + r.confidence * weight, p.2 + weight))
      (0, 0)
    acc.1 / acc.2

/-- The `overall_evidence` combination (`function_app.py` lines 596-605):
collect the evidence of non-`Error` entries whose evidence is not the
placeholder, mapping a falsy (empty) string back to the placeholder, and join
the first two with `" | "`; the field keeps its initialised default
`"No evidence found"` when no piece qualifies. -/
def combine_overall_evidence (sub_results : List SubResult) : String :=
  let evidence_pieces :=
    (sub_results.filter
        (fun r => decide (r.evidence ≠ "No evidence found" ∧ r.status ≠ .error))).map
      (fun r => if r.evidence ≠ "" then r.evidence else "No evidence found")
  if evidence_pieces.isEmpty then "No evidence found"
  else String.intercalate " | " (evidence_pieces.take 2)

/-- The full aggregation of one control's sub-results into
`(overall_status, overall_confidence, overall_evidence)`
(`function_app.py` lines 592-605; for an empty sub-requirement list the
source keeps the defaults of lines 476-478, which coincide with the value
computed here). -/
def aggregate (sub_results : List SubResult) : Status × ℚ × String :=
  (calculate_overall_control_status sub_results,
   calculate_overall_confidence sub_results,
   combine_overall_evidence sub_results)

/-! ## Evidence classifier (`function_app.py` lines 12-46) -/

/-- The dictionary returned by `determine_evidence_requirements`.
`evidence_examples` is absent in the mixed/unclear branch and
`assessment_note` is present only there, hence the `Option` types. -/
structure EvidenceReq where
  type : String
  policy_max_score : String
  full_compliance_requires : List String
  reasoning : String
  evidence_examples : Option String
  assessment_note : Option String

/-- Embeds `determine_evidence_requirements` (`function_app.py` lines 12-46). -/
def determine_evidence_requirements (control_definition : String) : EvidenceReq :=
  let control_definition := pyStrip control_definition
  if pyStartswith control_definition "The information system" then
    { type := "technical_implementation"
      policy_max_score := "Partially Meets"
      full_compliance_requires := ["system_evidence", "technical_proof", "implementation_verification"]
      reasoning := "Technical control requires system implementation evidence - policy alone insufficient"
      evidence_examples := some "system configurations, screenshots, logs, audit reports, technical testing results"
      assessment_note := none }
  else if pyStartswith control_definition "The organization" then
    { type := "organizational"
      policy_max_score := "Fully Meets"
      full_compliance_requires := ["policy", "procedures", "organizational_processes"]
      reasoning := "Organizational control can be met through documented policies and procedures"
      evidence_examples := some "policy documents, procedures, organizational charts, training records"
      assessment_note := none }
  else
    { type := "mixed_or_unclear"
      policy_max_score := "Partially Meets"
      full_compliance_requires := ["contextual_analysis_needed"]
      reasoning := "Control type unclear from definition - requires careful evidence analysis"
      evidence_examples := none
      assessment_note := some "Analyze specific control requirements to determine appropriate evidence types" }

/-! ## Prompt builder (`function_app.py` lines 243-301) -/

/-- One sub-requirement of the static catalog: title, definition and the
ordered `assessment_criteria` entries `(criterion, guidance)`. -/
structure SubInfo where
  title : String
  definition : String
  assessment_criteria : List (String × String)

/-- One control of the static catalog (`NIST_CONTROLS` entry): the fields
accessed by `ComplianceChecker`, with `sub_requirements` as the ordered
`(sub_id, sub_info)` entries. -/
structure ControlInfo where
  name : String
  title : String
  definition : String
  sub_requirements : List (String × SubInfo)

/-- One iteration of the criteria loop of `create_pattern_based_prompt`
(`function_app.py` lines 274-275): `base_prompt += f"• \x7bcriterion.upper()\x7d: \x7bdescription\x7d\n"`. -/
def critStep (acc : String) (cd : String × String) : String :=
  acc ++ ("• " ++ pyUpper cd.1 ++ ": " ++ cd.2 ++ "\n")

/-- The fixed assessment-instructions block of the prompt
(`function_app.py` lines 278-287, up to the interpolated document text). -/
def assessmentInstructionsBlock : String :=
  "\nASSESSMENT INSTRUCTIONS:\n1. Analyze the document systematically for evidence related to this requirement\n2. Consider the control type when determining compliance level\n3. For technical controls: Policy alone = maximum \"Partially Meets\"\n4. For organizational controls: Policy/procedures can achieve \"Fully Meets\"\n5. Quote specific evidence from the document\n\nDOCUMENT TO ANALYZE:\n"

/-- The fixed response-format block of the prompt
(`function_app.py` lines 288-299, after the interpolated document text). -/
def jsonResponseBlock : String :=
  "\n\nREQUIRED JSON RESPONSE:\n\x7b\n    \"evidence\": \"Direct quotes from document with page references\",\n    \"status\": \"Fully Meets\" | \"Partially Meets\" | \"Does Not Meet\", \n    \"confidence\": 0.0-1.0,\n    \"assessment_reasoning\": \"Explanation of why this score was assigned based on control type and evidence found\",\n    \"evidence_type_analysis\": \"What types of evidence were found (policy, technical, procedural, etc.)\"\n\x7d\n\nRemember: Apply pattern-based rules consistently. Technical implementation controls require more than policy evidence for full compliance.\n"

/-- Embeds `create_pattern_based_prompt` (`function_app.py` lines 243-301).  Note
that the source accepts `control_info` but never uses it. -/
def create_pattern_based_prompt (sub_id : String) (sub_info : SubInfo)
    (control_info : ControlInfo) (document_text : String) (current_date : String) : String :=
  let evidence_req := determine_evidence_requirements sub_info.definition
  let base_prompt :=
    "\nToday's date is " ++ current_date ++
    ".\n\nCOMPLIANCE ASSESSMENT for " ++ sub_id ++ ": " ++ sub_info.title ++
    "\n\nSub-requirement definition: " ++ sub_info.definition ++
    "\n\nPATTERN-BASED ASSESSMENT RULES:\nControl Type: " ++ evidence_req.type ++
    "\nReasoning: " ++ evidence_req.reasoning ++
    "\nPolicy Document Maximum Score: " ++ evidence_req.policy_max_score ++
    "\nRequired Evidence Types: " ++ String.intercalate ", " evidence_req.full_compliance_requires ++
    "\nEvidence Examples: " ++ evidence_req.evidence_examples.getD "Various forms of supporting documentation" ++
    "\n\n"
  let base_prompt :=
    match evidence_req.assessment_note with
    | some note => base_prompt ++ ("Special Note: " ++ note ++ "\n\n")
    | none => base_prompt
  let criteria := sub_info.assessment_criteria
  let base_prompt :=
    if criteria.isEmpty then base_prompt
    else (criteria.foldl critStep (base_prompt ++ "SPECIFIC CRITERIA TO CHECK:\n")) ++ "\n"
  base_prompt ++ assessmentInstructionsBlock ++ pyTake 8000 document_text ++ jsonResponseBlock

/-! ## Judgment normalizer (`function_app.py` lines 505-576) -/

mutual

/-- Python `repr` of a JSON-decoded value (string quoting and the rendering
of the rational float model abstract CPython's exact escaping and float
`repr`; no claim depends on them). -/
def pyRepr : PyValue → String
  | .pyNone => "None"
  | .pyBool b => if b then "True" else "False"
  | .pyInt n => toString n
  | .pyFloat q => toString q
  | .pyStr s => "'" ++ s ++ "'"
  | .pyList xs => "[" ++ String.intercalate ", " (pyReprList xs) ++ "]"
  | .pyDict kvs => "\x7b" ++ String.intercalate ", " (pyReprDict kvs) ++ "\x7d"

/-- Python `repr` of each element of a list. -/
def pyReprList : List PyValue → List String
  | [] => []
  | x :: xs => pyRepr x :: pyReprList xs

/-- Python `repr` of each `key: value` entry of a dictionary. -/
def pyReprDict : List (String × PyValue) → List String
  | [] => []
  | (k, v) :: xs => ("'" ++ k ++ "': " ++ pyRepr v) :: pyReprDict xs

end

/-- Python `str()` of a JSON-decoded value: the identity on strings,
`repr`-like otherwise. -/
def pyToStr : PyValue → String
  | .pyStr s => s
  | v => pyRepr v

/-- Python `dict.get` on the (distinct-key) entry list of a decoded JSON
object. -/
def dictGet (kvs : List (String × PyValue)) (k : String) : Option PyValue :=
  match kvs with
  | [] => none
  | (k', v) :: rest => if k' = k then some v else dictGet rest k

/-- Python `isinstance(x, (int, float))`.  CPython's `bool` is a subclass of
`int`, so booleans pass this check. -/
def pyIsNumeric : PyValue → Bool
  | .pyBool _ => true
  | .pyInt _ => true
  | .pyFloat _ => true
  | _ => false

/-- Python `float(x)` for values passing `pyIsNumeric` (0 otherwise;
unreachable in the source, which guards with `pyIsNumeric`). -/
def pyToFloat : PyValue → ℚ
  | .pyBool b => if b then 1 else 0
  | .pyInt n => (n : ℚ)
  | .pyFloat q => q
  | _ => 0

/-- Embeds `valid_statuses` (`function_app.py` line 530). -/
def valid_statuses : List String := ["Fully Meets", "Partially Meets", "Does Not Meet"]

/-- The `Status` denoted by one of the three valid status strings. -/
def statusOfString (s : String) : Status :=
  if s = "Fully Meets" then .fullyMeets
  else if s = "Partially Meets" then .partiallyMeets
  else .doesNotMeet

/-- Message of the `AttributeError` raised by CPython when `.get` is called
on a non-dict JSON value (`ai_result.get(...)` at line 521 when `json.loads`
returned a non-object). -/
def attrErrMsg : PyValue → String
  | .pyNone => "'NoneType' object has no attribute 'get'"
  | .pyBool _ => "'bool' object has no attribute 'get'"
  | .pyInt _ => "'int' object has no attribute 'get'"
  | .pyFloat _ => "'float' object has no attribute 'get'"
  | .pyStr _ => "'str' object has no attribute 'get'"
  | .pyList _ => "'list' object has no attribute 'get'"
  | .pyDict _ => ""

/-- The fence-stripping step (`function_app.py` lines 509-510): only a
response starting with "```json" is cleaned, by deleting every occurrence of
"```json" and then every occurrence of "```" and stripping. -/
def stripFences (t : String) : String :=
  if pyStartswith t "```json" then
    pyStrip (pyReplace (pyReplace t "```json" "") "```" "")
  else t

/-- The string clean-up applied to the raw judge response before
`json.loads` (`function_app.py` lines 505-516): strip, fence-strip, strip
again, and remove one pair of enclosing double quotes. -/
def cleanResponse (raw : String) : String :=
  let t := pyStrip raw
  let t := stripFences t
  let t := pyStrip t
  if pyStartswith t "\"" && pyEndswith t "\"" then pySlice1m1 t else t

/-- The `sub_result` built from the outcome of `json.loads`
(`function_app.py` lines 518-576): field extraction with defaults and
validation on a decoded object (lines 521-543); the `json.JSONDecodeError`
fallback (lines 548-562); and the generic `Exception` fallback (lines
564-576), reached when `.get` is called on a non-dict decode result.
The source keeps `status` as one of the three valid strings; here it is
carried as the corresponding `Status` constructor. -/
def parsedSubResult (sub_id : String) (sub_info : SubInfo)
    (parsed : Except String PyValue) : SubResult :=
  match parsed with
  | .error json_err =>
    { sub_id := sub_id
      title := sub_info.title
      definition := sub_info.definition
      evidence := "AI response parsing error: " ++ pyTake 100 json_err
      status := .error
      confidence := 0
      assessment_reasoning := .pyStr "JSON parsing failed"
      evidence_type_analysis := .pyStr "Error in processing" }
  | .ok (.pyDict kvs) =>
    let evidence := (dictGet kvs "evidence").getD (.pyStr "No evidence found")
    let status := (dictGet kvs "status").getD (.pyStr "Does Not Meet")
    let confidence := (dictGet kvs "confidence").getD (.pyFloat 0)
    let confidence := if pyIsNumeric confidence then confidence else .pyFloat 0
    let statusStr :=
      match status with
      | .pyStr s => if s ∈ valid_statuses then s else "Does Not Meet"
      | _ => "Does Not Meet"
    { sub_id := sub_id
      title := sub_info.title
      definition := sub_info.definition
      evidence := pyToStr evidence
      status := statusOfString statusStr
      confidence := pyToFloat confidence
      assessment_reasoning := (dictGet kvs "assessment_reasoning").getD (.pyStr "No reasoning provided")
      evidence_type_analysis := (dictGet kvs "evidence_type_analysis").getD (.pyStr "No analysis provided") }
  | .ok other =>
    { sub_id := sub_id
      title := sub_info.title
      definition := sub_info.definition
      evidence := "Unexpected parsing error: " ++ pyTake 100 (attrErrMsg other)
      status := .error
      confidence := 0
      assessment_reasoning := .pyStr "Parsing error occurred"
      evidence_type_analysis := .pyStr "Error in processing" }

/-- Normalization of one raw judge response (`function_app.py` lines
505-576): clean the text, hand it to the (abstracted) `json.loads`, and build
the `sub_result`.  Total by construction: every branch of the source appends
a well-formed record. -/
def normalize (sub_id : String) (sub_info : SubInfo)
    (parse : String → Except String PyValue) (raw : String) : SubResult :=
  parsedSubResult sub_id sub_info (parse (cleanResponse raw))

/-! ## Per-control processing loop (`function_app.py` lines 482-607) -/

/-- Processing of one sub-requirement (`function_app.py` lines 485-590):
the judge call either raises (outer `except`, lines 578-590, recorded as an
`Error` verdict) or returns text that is normalized. -/
def process_sub (sub_id : String) (sub_info : SubInfo)
    (parse : String → Except String PyValue)
    (response : Except String String) : SubResult :=
  match response with
  | .error sub_error =>
    { sub_id := sub_id
      title := sub_info.title
      definition := sub_info.definition
      evidence := "Processing error: " ++ pyTake 100 sub_error
      status := .error
      confidence := 0
      assessment_reasoning := .pyStr "Processing error occurred"
      evidence_type_analysis := .pyStr "Error in processing" }
  | .ok content => normalize sub_id sub_info parse content

/-- The per-control loop over sub-requirements (`function_app.py` lines
485-590): each iteration appends exactly one `sub_result`, so the loop is a
map over the control's sub-requirement entries. -/
def process_control_subs (control : ControlInfo)
    (judge : String → Except String String)
    (parse : String → Except String PyValue)
    (document_text current_date : String) : List SubResult :=
  control.sub_requirements.map (fun sub =>
    process_sub sub.1 sub.2 parse
      (judge (create_pattern_based_prompt sub.1 sub.2 control document_text current_date)))

/-! ## Specification-side definitions -/

/-- The per-status weight named by the spec (1.2 for Fully Meets, 0.8 for
Does Not Meet, 1.0 for Partially Meets). -/
def specWeight (s : Status) : ℚ :=
  if s = .fullyMeets then 1.2
  else if s = .doesNotMeet then 0.8
  else 1.0

/-- Modelled from the spec's confidence rule: the weighted mean of the
entries' confidences under `specWeight`. -/
def weightedMeanSpec (l : List SubResult) : ℚ :=
  (l.map fun r => r.confidence * specWeight r.status).sum /
    (l.map fun r => specWeight r.status).sum

/-! ## Concrete test data for witnesses -/

/-- A sub-result with the given status and confidence (the remaining fields
are irrelevant to the aggregation rules). -/
def mkSub (st : Status) (conf : ℚ) : SubResult :=
  { sub_id := "s", title := "t", definition := "d", evidence := "e",
    status := st, confidence := conf,
    assessment_reasoning := .pyNone, evidence_type_analysis := .pyNone }

/-- Ten verdicts: 8 Fully Meets and 2 Partially Meets (the 80% boundary). -/
def c1ex1 : List SubResult :=
  [mkSub .fullyMeets 1, mkSub .fullyMeets 1, mkSub .fullyMeets 1, mkSub .fullyMeets 1,
   mkSub .fullyMeets 1, mkSub .fullyMeets 1, mkSub .fullyMeets 1, mkSub .fullyMeets 1,
   mkSub .partiallyMeets 1, mkSub .partiallyMeets 1]

/-- Ten verdicts: exactly 5 Does Not Meet and 5 Partially Meets (the 50%
boundary). -/
def c1ex2 : List SubResult :=
  [mkSub .doesNotMeet 1, mkSub .doesNotMeet 1, mkSub .doesNotMeet 1, mkSub .doesNotMeet 1,
   mkSub .doesNotMeet 1, mkSub .partiallyMeets 1, mkSub .partiallyMeets 1,
   mkSub .partiallyMeets 1, mkSub .partiallyMeets 1, mkSub .partiallyMeets 1]

/-- Fully Meets at confidence 0.9 together with Does Not Meet at 0.5. -/
def c2ex : List SubResult :=
  [mkSub .fullyMeets 0.9, mkSub .doesNotMeet 0.5]

/-! ## Aggregation lemmas and claims C1-C3 -/

theorem conf_foldl (l : List SubResult) (a b : ℚ) :
    l.foldl
      (fun (p : ℚ × ℚ) r =>
        let weight : ℚ :=
          if r.status = .fullyMeets then 1.2
          else if r.status = .doesNotMeet then 0.8
          else 1.0
        (p.1 + r.confidence * weight, p.2 + weight)) (a, b)
    = (a + (l.map fun r => r.confidence * specWeight r.status).sum,
       b + (l.map fun r => specWeight r.status).sum) := by
  induction l generalizing a b with
  | nil => simp
  | cons r t ih =>
    simp only [List.foldl_cons, ih, List.map_cons, List.sum_cons, specWeight]
    rw [Prod.mk.injEq]
    exact ⟨by ring, by ring⟩

/-- C1: with a non-empty filtered set of size `n`, `fully` counting
"Fully Meets" and `nones` counting "Does Not Meet", the overall status is
Fully Meets exactly when `nones = 0` and `fully ≥ 0.8 * n`, otherwise
Does Not Meet exactly when `nones > 0.5 * n`, otherwise Partially Meets. -/
theorem c1_overall_status_rule (l : List SubResult)
    (h : l.filter (fun r => r.status ≠ .error) ≠ []) :
    calculate_overall_control_status l =
      (let valid := l.filter (fun r => r.status ≠ .error)
       let n := valid.length
       let fully := (valid.filter (fun r => r.status = .fullyMeets)).length
       let nones := (valid.filter (fun r => r.status = .doesNotMeet)).length
       if nones = 0 ∧ (fully : ℚ) ≥ (n : ℚ) * 0.8 then .fullyMeets
       else if (nones : ℚ) > (n : ℚ) * 0.5 then .doesNotMeet
       else .partiallyMeets) := by
  match l with
  | [] => simp at h
  | a :: t =>
    have hne : ((a :: t).filter (fun r => r.status ≠ .error)).isEmpty = false := by
      simpa [List.isEmpty_iff] using h
    simp only [calculate_overall_control_status, List.isEmpty_cons, hne,
      Bool.false_eq_true, if_false]

/-- Witness for C1, covering the spec's two boundary examples: 8 Fully Meets
plus 2 Partially Meets out of 10 gives Fully Meets (exactly 80%), and
exactly 5 Does Not Meet out of 10 gives Partially Meets (not strictly above
50%). -/
theorem c1_overall_status_rule_witness :
    (c1ex1.filter (fun r => r.status ≠ .error) ≠ [] ∧
      calculate_overall_control_status c1ex1 = .fullyMeets) ∧
    (c1ex2.filter (fun r => r.status ≠ .error) ≠ [] ∧
      calculate_overall_control_status c1ex2 = .partiallyMeets) := by
  have h1 : c1ex1.filter (fun r => r.status ≠ .error) ≠ [] :=
    List.ne_nil_of_length_pos (by decide)
  have h2 : c1ex2.filter (fun r => r.status ≠ .error) ≠ [] :=
    List.ne_nil_of_length_pos (by decide)
  refine ⟨⟨h1, ?_⟩, ⟨h2, ?_⟩⟩
  · rw [c1_overall_status_rule c1ex1 h1]
    show (if (0 : ℕ) = 0 ∧ ((8 : ℕ) : ℚ) ≥ ((10 : ℕ) : ℚ) * 0.8 then Status.fullyMeets
          else if ((0 : ℕ) : ℚ) > ((10 : ℕ) : ℚ) * 0.5 then Status.doesNotMeet
          else Status.partiallyMeets) = Status.fullyMeets
    rw [if_pos (by norm_num)]
  · rw [c1_overall_status_rule c1ex2 h2]
    show (if (5 : ℕ) = 0 ∧ ((0 : ℕ) : ℚ) ≥ ((10 : ℕ) : ℚ) * 0.8 then Status.fullyMeets
          else if ((5 : ℕ) : ℚ) > ((10 : ℕ) : ℚ) * 0.5 then Status.doesNotMeet
          else Status.partiallyMeets) = Status.partiallyMeets
    rw [if_neg (by norm_num), if_neg (by norm_num)]

/-- C2: with a non-empty filtered set, the overall confidence is the
weighted mean of the filtered confidences with weights 1.2 / 0.8 / 1.0. -/
theorem c2_overall_confidence_rule (l : List SubResult)
    (h : l.filter (fun r => r.status ≠ .error) ≠ []) :
    calculate_overall_confidence l =
      weightedMeanSpec (l.filter (fun r => r.status ≠ .error)) := by
  have hne : (l.filter (fun r => r.status ≠ .error)).isEmpty = false := by
    simpa [List.isEmpty_iff] using h
  simp only [calculate_overall_confidence, hne, Bool.false_eq_true, if_false,
    conf_foldl, zero_add, weightedMeanSpec]

/-- Witness for C2: a Fully Meets entry at confidence 0.9 and a Does Not
Meet entry at confidence 0.5 aggregate to confidence 0.74. -/
theorem c2_overall_confidence_rule_witness :
    c2ex.filter (fun r => r.status ≠ .error) ≠ [] ∧
      calculate_overall_confidence c2ex = 0.74 := by
  have h : c2ex.filter (fun r => r.status ≠ .error) ≠ [] :=
    List.ne_nil_of_length_pos (by decide)
  refine ⟨h, ?_⟩
  rw [c2_overall_confidence_rule c2ex h]
  show ((0.9 * 1.2 + (0.5 * 0.8 + 0)) / (1.2 + (0.8 + 0)) : ℚ) = 0.74
  norm_num

/-- C3: the empty verdict list and any all-Error verdict list aggregate to
(Does Not Meet, 0.0, "No evidence found"). -/
theorem c3_all_error_aggregation :
    aggregate [] = (.doesNotMeet, 0, "No evidence found") ∧
    ∀ l : List SubResult, (∀ r ∈ l, r.status = .error) →
      aggregate l = (.doesNotMeet, 0, "No evidence found") := by
  refine ⟨rfl, fun l h => ?_⟩
  have hv : l.filter (fun r => r.status ≠ .error) = [] := by
    rw [List.filter_eq_nil_iff]
    intro a ha
    simp [h a ha]
  have he : l.filter
      (fun r => decide (r.evidence ≠ "No evidence found" ∧ r.status ≠ .error)) = [] := by
    rw [List.filter_eq_nil_iff]
    intro a ha
    simp [h a ha]
  have h1 : calculate_overall_control_status l = .doesNotMeet := by
    unfold calculate_overall_control_status
    split
    · rfl
    · simp only [hv]
      rfl
  have h2 : calculate_overall_confidence l = 0 := by
    unfold calculate_overall_confidence
    simp only [hv]
    rfl
  have h3 : combine_overall_evidence l = "No evidence found" := by
    unfold combine_overall_evidence
    simp only [he]
    rfl
  rw [aggregate, h1, h2, h3]

/-- Witness for C3: a two-entry all-Error list aggregates to the default
triple. -/
theorem c3_all_error_aggregation_witness :
    (∀ r ∈ [mkSub .error 0, mkSub .error 0], r.status = .error) ∧
      aggregate [mkSub .error 0, mkSub .error 0] =
        (.doesNotMeet, 0, "No evidence found") :=
  ⟨by decide, c3_all_error_aggregation.2 _ (by decide)⟩

/-! ## Claim C9: evidence classifier -/

/-- C9: after stripping surrounding whitespace, classification is the
three-way case split of the source: a definition starting with
"The information system" is technical with policy maximum "Partially
Meets"; otherwise one starting with "The organization" is organizational
with policy maximum "Fully Meets"; otherwise mixed/unclear with policy
maximum "Partially Meets". -/
theorem c9_classifier_rule (s : String) :
    (pyStartswith (pyStrip s) "The information system" = true →
      (determine_evidence_requirements s).type = "technical_implementation" ∧
      (determine_evidence_requirements s).policy_max_score = "Partially Meets") ∧
    (pyStartswith (pyStrip s) "The information system" = false →
      pyStartswith (pyStrip s) "The organization" = true →
      (determine_evidence_requirements s).type = "organizational" ∧
      (determine_evidence_requirements s).policy_max_score = "Fully Meets") ∧
    (pyStartswith (pyStrip s) "The information system" = false →
      pyStartswith (pyStrip s) "The organization" = false →
      (determine_evidence_requirements s).type = "mixed_or_unclear" ∧
      (determine_evidence_requirements s).policy_max_score = "Partially Meets") := by
  refine ⟨fun h1 => ?_, fun h1 h2 => ?_, fun h1 h2 => ?_⟩
  · simp [determine_evidence_requirements, h1]
  · simp [determine_evidence_requirements, h1, h2]
  · simp [determine_evidence_requirements, h1, h2]

/-- Witness for C9: one concrete definition of each class. -/
theorem c9_classifier_rule_witness :
    (pyStartswith (pyStrip "  The information system enforces approved authorizations.") "The information system" = true ∧
      (determine_evidence_requirements "  The information system enforces approved authorizations.").type = "technical_implementation" ∧
      (determine_evidence_requirements "  The information system enforces approved authorizations.").policy_max_score = "Partially Meets") ∧
    (pyStartswith (pyStrip "The organization develops a policy.") "The information system" = false ∧
      pyStartswith (pyStrip "The organization develops a policy.") "The organization" = true ∧
      (determine_evidence_requirements "The organization develops a policy.").type = "organizational" ∧
      (determine_evidence_requirements "The organization develops a policy.").policy_max_score = "Fully Meets") ∧
    (pyStartswith (pyStrip "Accounts are reviewed annually.") "The information system" = false ∧
      pyStartswith (pyStrip "Accounts are reviewed annually.") "The organization" = false ∧
      (determine_evidence_requirements "Accounts are reviewed annually.").type = "mixed_or_unclear" ∧
      (determine_evidence_requirements "Accounts are reviewed annually.").policy_max_score = "Partially Meets") := by
  refine ⟨⟨rfl, (c9_classifier_rule _).1 rfl⟩,
          ⟨rfl, rfl, (c9_classifier_rule _).2.1 rfl rfl⟩,
          ⟨rfl, rfl, (c9_classifier_rule _).2.2 rfl rfl⟩⟩

/-! ## Claim C4: normalizer totality -/

/-- A sub-requirement used as a concrete instance in witnesses. -/
def subX : SubInfo :=
  { title := "t", definition := "The organization does d", assessment_criteria := [("c", "g")] }

/-- C4: normalization is total (a Lean function on all strings and all
parser outcomes), always yields a verdict whose status is one of the four
values, and on a JSON parse failure yields status Error, confidence 0.0 and
an evidence string carrying the parser's error message. -/
theorem c4_normalizer_totality (sub_id : String) (sub_info : SubInfo)
    (parse : String → Except String PyValue) (raw : String) :
    ((normalize sub_id sub_info parse raw).status = .fullyMeets ∨
     (normalize sub_id sub_info parse raw).status = .partiallyMeets ∨
     (normalize sub_id sub_info parse raw).status = .doesNotMeet ∨
     (normalize sub_id sub_info parse raw).status = .error) ∧
    (∀ msg, parse (cleanResponse raw) = .error msg →
      (normalize sub_id sub_info parse raw).evidence =
          "AI response parsing error: " ++ pyTake 100 msg ∧
      (normalize sub_id sub_info parse raw).status = .error ∧
      (normalize sub_id sub_info parse raw).confidence = 0) := by
  constructor
  · cases h : (normalize sub_id sub_info parse raw).status <;> simp
  · intro msg hmsg
    unfold normalize
    rw [hmsg]
    exact ⟨rfl, rfl, rfl⟩

/-- Witness for C4: a parser that fails with CPython's message on non-JSON
garbage. -/
theorem c4_normalizer_totality_witness :
    (fun (_ : String) => (Except.error "Expecting value: line 1 column 1 (char 0)" : Except String PyValue)) (cleanResponse "not json") = .error "Expecting value: line 1 column 1 (char 0)" ∧
    ((normalize "AC-1(A)(a)" subX (fun _ => .error "Expecting value: line 1 column 1 (char 0)") "not json").evidence =
        "AI response parsing error: " ++ pyTake 100 "Expecting value: line 1 column 1 (char 0)" ∧
      (normalize "AC-1(A)(a)" subX (fun _ => .error "Expecting value: line 1 column 1 (char 0)") "not json").status = .error ∧
      (normalize "AC-1(A)(a)" subX (fun _ => .error "Expecting value: line 1 column 1 (char 0)") "not json").confidence = 0) :=
  ⟨rfl, (c4_normalizer_totality "AC-1(A)(a)" subX _ "not json").2 _ rfl⟩

/-! ## Claims C6 and C10: normalizer field extraction -/

/-- C6: when the judge response parses as a JSON object, the verdict's
evidence is the string coercion of the object's "evidence" field (default
"No evidence found" when absent); its status is the "status" field exactly
when that field is one of the three valid literals, and "Does Not Meet" for
any other or absent value (never Error); and its confidence is the numeric
"confidence" field, or 0.0 when the field is absent or non-numeric
(a string, null, list or object). -/
theorem c6_normalizer_fields (sub_id : String) (sub_info : SubInfo)
    (parse : String → Except String PyValue) (raw : String)
    (kvs : List (String × PyValue))
    (hp : parse (cleanResponse raw) = .ok (.pyDict kvs)) :
    (∀ e, dictGet kvs "evidence" = some e →
      (normalize sub_id sub_info parse raw).evidence = pyToStr e) ∧
    (dictGet kvs "evidence" = none →
      (normalize sub_id sub_info parse raw).evidence = "No evidence found") ∧
    ((normalize sub_id sub_info parse raw).status = .fullyMeets ↔
      dictGet kvs "status" = some (.pyStr "Fully Meets")) ∧
    ((normalize sub_id sub_info parse raw).status = .partiallyMeets ↔
      dictGet kvs "status" = some (.pyStr "Partially Meets")) ∧
    ((normalize sub_id sub_info parse raw).status = .fullyMeets ∨
     (normalize sub_id sub_info parse raw).status = .partiallyMeets ∨
     (normalize sub_id sub_info parse raw).status = .doesNotMeet) ∧
    (∀ n : ℤ, dictGet kvs "confidence" = some (.pyInt n) →
      (normalize sub_id sub_info parse raw).confidence = (n : ℚ)) ∧
    (∀ q : ℚ, dictGet kvs "confidence" = some (.pyFloat q) →
      (normalize sub_id sub_info parse raw).confidence = q) ∧
    (dictGet kvs "confidence" = none →
      (normalize sub_id sub_info parse raw).confidence = 0) ∧
    (∀ s, dictGet kvs "confidence" = some (.pyStr s) →
      (normalize sub_id sub_info parse raw).confidence = 0) ∧
    (dictGet kvs "confidence" = some .pyNone →
      (normalize sub_id sub_info parse raw).confidence = 0) ∧
    (∀ xs, dictGet kvs "confidence" = some (.pyList xs) →
      (normalize sub_id sub_info parse raw).confidence = 0) ∧
    (∀ kv2, dictGet kvs "confidence" = some (.pyDict kv2) →
      (normalize sub_id sub_info parse raw).confidence = 0) := by
  have hn : normalize sub_id sub_info parse raw =
      parsedSubResult sub_id sub_info (.ok (.pyDict kvs)) := by
    unfold normalize
    rw [hp]
  refine ⟨?_, ?_, ?_, ?_, ?_, ?_, ?_, ?_, ?_, ?_, ?_, ?_⟩ <;> rw [hn]
  · intro e he
    simp [parsedSubResult, he]
  · intro he
    simp [parsedSubResult, he, pyToStr]
  · rcases h : dictGet kvs "status" with _ | sv
    · simp [parsedSubResult, h, statusOfString]
    · cases sv <;> simp only [parsedSubResult, h, Option.getD_some]
      case pyStr s =>
        by_cases h1 : s = "Fully Meets"
        · simp [h1, valid_statuses, statusOfString]
        · by_cases h2 : s = "Partially Meets"
          · simp [h2, valid_statuses, statusOfString]
          · by_cases h3 : s = "Does Not Meet"
            · simp [h3, valid_statuses, statusOfString, h1]
            · simp [valid_statuses, statusOfString, h1, h2, h3]
      all_goals simp [statusOfString]
  · rcases h : dictGet kvs "status" with _ | sv
    · simp [parsedSubResult, h, statusOfString]
    · cases sv <;> simp only [parsedSubResult, h, Option.getD_some]
      case pyStr s =>
        by_cases h1 : s = "Fully Meets"
        · simp [h1, valid_statuses, statusOfString]
        · by_cases h2 : s = "Partially Meets"
          · simp [h2, valid_statuses, statusOfString, h1]
          · by_cases h3 : s = "Does Not Meet"
            · simp [h3, valid_statuses, statusOfString, h1, h2]
            · simp [valid_statuses, statusOfString, h1, h2, h3]
      all_goals simp [statusOfString]
  · rcases h : dictGet kvs "status" with _ | sv
    · simp [parsedSubResult, h, statusOfString]
    · cases sv <;> simp only [parsedSubResult, h, Option.getD_some]
      case pyStr s =>
        by_cases h1 : s = "Fully Meets"
        · simp [h1, valid_statuses, statusOfString]
        · by_cases h2 : s = "Partially Meets"
          · simp [h2, valid_statuses, statusOfString, h1]
          · by_cases h3 : s = "Does Not Meet"
            · simp [h3, valid_statuses, statusOfString, h1, h2]
            · simp [valid_statuses, statusOfString, h1, h2, h3]
      all_goals simp [statusOfString]
  · intro n h
    simp [parsedSubResult, h, pyIsNumeric, pyToFloat]
  · intro q h
    simp [parsedSubResult, h, pyIsNumeric, pyToFloat]
  · intro h
    simp [parsedSubResult, h, pyIsNumeric, pyToFloat]
  · intro s h
    simp [parsedSubResult, h, pyIsNumeric, pyToFloat]
  · intro h
    simp [parsedSubResult, h, pyIsNumeric, pyToFloat]
  · intro xs h
    simp [parsedSubResult, h, pyIsNumeric, pyToFloat]
  · intro kv2 h
    simp [parsedSubResult, h, pyIsNumeric, pyToFloat]

/-- The decoded object of the round-trip example of C6. -/
def c6kvs : List (String × PyValue) :=
  [("evidence", .pyStr "x"), ("status", .pyStr "Fully Meets"), ("confidence", .pyFloat 0.7)]

/-- Witness for C6: normalizing the JSON object
`\x7b"evidence": "x", "status": "Fully Meets", "confidence": 0.7\x7d`
yields evidence "x", status Fully Meets, confidence 0.7. -/
theorem c6_normalizer_fields_witness :
    (fun (_ : String) => (Except.ok (.pyDict c6kvs) : Except String PyValue))
        (cleanResponse "\x7b\"evidence\": \"x\", \"status\": \"Fully Meets\", \"confidence\": 0.7\x7d") = .ok (.pyDict c6kvs) ∧
    (normalize "AC-1(A)(a)" subX (fun _ => .ok (.pyDict c6kvs)) "\x7b\"evidence\": \"x\", \"status\": \"Fully Meets\", \"confidence\": 0.7\x7d").evidence = "x" ∧
    (normalize "AC-1(A)(a)" subX (fun _ => .ok (.pyDict c6kvs)) "\x7b\"evidence\": \"x\", \"status\": \"Fully Meets\", \"confidence\": 0.7\x7d").status = .fullyMeets ∧
    (normalize "AC-1(A)(a)" subX (fun _ => .ok (.pyDict c6kvs)) "\x7b\"evidence\": \"x\", \"status\": \"Fully Meets\", \"confidence\": 0.7\x7d").confidence = 0.7 := by
  have h := c6_normalizer_fields "AC-1(A)(a)" subX (fun _ => .ok (.pyDict c6kvs))
    "\x7b\"evidence\": \"x\", \"status\": \"Fully Meets\", \"confidence\": 0.7\x7d" c6kvs rfl
  exact ⟨rfl, h.1 (.pyStr "x") rfl, h.2.2.1.mpr rfl, h.2.2.2.2.2.2.1 0.7 rfl⟩

/-- C10: a boolean "confidence" value passes the source's
`isinstance(confidence, (int, float))` check (CPython's `bool` is an `int`
subclass), so it is coerced by `float(...)`: the verdict's confidence is 1.0
for JSON `true` and 0.0 for JSON `false`, not the non-numeric default. -/
theorem c10_bool_confidence (sub_id : String) (sub_info : SubInfo)
    (parse : String → Except String PyValue) (raw : String)
    (kvs : List (String × PyValue))
    (hp : parse (cleanResponse raw) = .ok (.pyDict kvs)) :
    (dictGet kvs "confidence" = some (.pyBool true) →
      (normalize sub_id sub_info parse raw).confidence = 1) ∧
    (dictGet kvs "confidence" = some (.pyBool false) →
      (normalize sub_id sub_info parse raw).confidence = 0) := by
  have hn : normalize sub_id sub_info parse raw =
      parsedSubResult sub_id sub_info (.ok (.pyDict kvs)) := by
    unfold normalize
    rw [hp]
  constructor <;> intro h <;> rw [hn] <;> simp [parsedSubResult, h, pyIsNumeric, pyToFloat]

/-- Witness for C10: an object carrying `"confidence": true` normalizes to
confidence 1.0. -/
theorem c10_bool_confidence_witness :
    (fun (_ : String) => (Except.ok (.pyDict [("confidence", .pyBool true)]) : Except String PyValue))
        (cleanResponse "\x7b\"confidence\": true\x7d") = .ok (.pyDict [("confidence", .pyBool true)]) ∧
    dictGet [("confidence", .pyBool true)] "confidence" = some (.pyBool true) ∧
    (normalize "AC-1(A)(a)" subX (fun _ => .ok (.pyDict [("confidence", .pyBool true)]))
        "\x7b\"confidence\": true\x7d").confidence = 1 :=
  ⟨rfl, rfl,
    (c10_bool_confidence "AC-1(A)(a)" subX _ "\x7b\"confidence\": true\x7d"
      [("confidence", .pyBool true)] rfl).1 rfl⟩

/-! ## Claim C5: one verdict per sub-requirement, failures isolated -/

theorem process_sub_keeps_id (sub_id : String) (sub_info : SubInfo)
    (parse : String → Except String PyValue) (response : Except String String) :
    (process_sub sub_id sub_info parse response).sub_id = sub_id := by
  cases response with
  | error e => rfl
  | ok content =>
    show (parsedSubResult sub_id sub_info (parse (cleanResponse content))).sub_id = sub_id
    cases parse (cleanResponse content) with
    | error m => rfl
    | ok v => cases v <;> rfl

/-- The concrete control used to instantiate witnesses: the `AC-2` fragment
of the static catalog relevant to sub-requirement `AC-2(A)`. -/
def acct_sub : SubInfo :=
  { title := "Account type identification"
    definition := "The organization identifies and selects which types of information system accounts support organizational missions/business functions."
    assessment_criteria :=
      [("account_types", "Look for mentions of different user categories, account types, or user groups"),
       ("business_alignment", "Evidence that account types are tied to business needs or functions")] }

/-- The `AC-2` control ("Account Management") restricted to the sub-requirement
above (a concrete input for witnesses; the title and structure follow the
static catalog). -/
def acct_control : ControlInfo :=
  { name := "Account Management"
    title := "Account Management"
    definition := "(A) The organization identifies and selects which types of information system accounts support organizational missions/business functions."
    sub_requirements := [("AC-2(A)", acct_sub)] }

/-- C5: processing a control yields exactly one verdict per sub-requirement,
in order and carrying its identifier; a judge failure on one sub-requirement
is recorded there as a status-Error verdict; and each verdict depends on the
judge only through that sub-requirement's own prompt, so a failure on one
sub-requirement leaves every other verdict unchanged and never aborts the
report. -/
theorem c5_per_sub_isolation (control : ControlInfo)
    (judge judge' : String → Except String String)
    (parse : String → Except String PyValue)
    (document_text current_date : String) :
    (process_control_subs control judge parse document_text current_date).length =
      control.sub_requirements.length ∧
    (∀ i : ℕ,
      ((process_control_subs control judge parse document_text current_date).get? i).map
          (fun r => r.sub_id) =
        (control.sub_requirements.get? i).map (fun sub => sub.1)) ∧
    (∀ (i : ℕ) (sub : String × SubInfo) (e : String),
      control.sub_requirements.get? i = some sub →
      judge (create_pattern_based_prompt sub.1 sub.2 control document_text current_date) = .error e →
      ((process_control_subs control judge parse document_text current_date).get? i).map
          (fun r => r.status) = some .error) ∧
    (∀ (i : ℕ) (sub : String × SubInfo),
      control.sub_requirements.get? i = some sub →
      judge (create_pattern_based_prompt sub.1 sub.2 control document_text current_date) =
        judge' (create_pattern_based_prompt sub.1 sub.2 control document_text current_date) →
      (process_control_subs control judge parse document_text current_date).get? i =
        (process_control_subs control judge' parse document_text current_date).get? i) := by
  refine ⟨?_, ?_, ?_, ?_⟩
  · simp [process_control_subs]
  · intro i
    simp only [process_control_subs, List.get?_map, Option.map_map]
    cases control.sub_requirements.get? i with
    | none => rfl
    | some sub => simp [process_sub_keeps_id]
  · intro i sub e h1 h2
    simp only [process_control_subs, List.get?_map, h1, Option.map_some']
    rw [h2]
    rfl
  · intro i sub h1 heq
    simp only [process_control_subs, List.get?_map, h1, Option.map_some']
    rw [heq]

/-- Witness for C5: a judge that raises on the single sub-requirement of the
concrete control yields the recorded Error verdict for it. -/
theorem c5_per_sub_isolation_witness :
    acct_control.sub_requirements.get? 0 = some ("AC-2(A)", acct_sub) ∧
    (fun (_ : String) => (Except.error "boom" : Except String String))
        (create_pattern_based_prompt "AC-2(A)" acct_sub acct_control "" "June 01, 2025") = .error "boom" ∧
    ((process_control_subs acct_control (fun _ => .error "boom") (fun _ => .error "x") "" "June 01, 2025").get? 0).map
        (fun r => r.status) = some .error :=
  ⟨rfl, rfl,
    (c5_per_sub_isolation acct_control (fun _ => .error "boom") (fun _ => .error "boom")
        (fun _ => .error "x") "" "June 01, 2025").2.2.1 0 ("AC-2(A)", acct_sub) "boom" rfl rfl⟩

/-! ## Claim C7: fence stripping -/

theorem sdata_append (a b : String) : (a ++ b).data = a.data ++ b.data := rfl

theorem sext {s t : String} (h : s.data = t.data) : s = t := by
  cases s
  cases t
  exact congrArg String.mk h

theorem isPrefixOf_cons_ne (p l : List Char) (a b : Char) (h : a ≠ b) :
    (a :: p).isPrefixOf (b :: l) = false := by
  simp [List.isPrefixOf, h]

theorem listReplace_skip (old : List Char) (p' : List Char) (hold : old = '`' :: p') :
    ∀ (l suf : List Char), (∀ ch ∈ l, ch ≠ '`') →
      listReplace old [] (l ++ suf) = l ++ listReplace old [] suf := by
  subst hold
  intro l
  induction l with
  | nil => simp
  | cons c cs ih =>
    intro suf h
    have hc : ('`' : Char) ≠ c := fun hh => (h c (by simp)) hh.symm
    show listReplaceAux _ [] ((cs ++ suf).length + 1) (c :: (cs ++ suf)) = _
    rw [listReplaceAux, if_neg (by simp [isPrefixOf_cons_ne _ _ _ _ hc])]
    have := ih suf (fun ch hch => h ch (by simp [hch]))
    simpa [listReplace] using congrArg (c :: ·) this

theorem listReplace_no_backtick (old l : List Char) (p' : List Char) (hold : old = '`' :: p')
    (h : ∀ ch ∈ l, ch ≠ '`') : listReplace old [] l = l := by
  have hl := listReplace_skip old p' hold l [] h
  rw [List.append_nil] at hl
  rw [hl]
  simp [listReplace, listReplaceAux]

theorem hs_refl (x : String) : hasSubstr x x :=
  ⟨"", "", by
    apply sext
    simp [sdata_append]⟩

theorem hs_left (a : String) {s x : String} (h : hasSubstr s x) : hasSubstr (a ++ s) x := by
  obtain ⟨p, q, rfl⟩ := h
  exact ⟨a ++ p, q, by
    apply sext
    simp [sdata_append, List.append_assoc]⟩

theorem hs_right (b : String) {s x : String} (h : hasSubstr s x) : hasSubstr (s ++ b) x := by
  obtain ⟨p, q, rfl⟩ := h
  exact ⟨p, q ++ b, by
    apply sext
    simp [sdata_append, List.append_assoc]⟩

theorem hs_foldl_crit {x init : String} (l : List (String × String)) (h : hasSubstr init x) :
    hasSubstr (l.foldl critStep init) x := by
  induction l generalizing init with
  | nil => exact h
  | cons hd tl ih => exact ih (hs_right _ h)

theorem hs_crit_mem (l : List (String × String)) (cd : String × String) (h : cd ∈ l) :
    ∀ init : String, hasSubstr (l.foldl critStep init) cd.2 := by
  induction l with
  | nil => cases h
  | cons hd tl ih =>
    intro init
    rcases List.mem_cons.mp h with hcd | h'
    · rw [hcd, List.foldl_cons]
      apply hs_foldl_crit
      show hasSubstr (init ++ ("• " ++ pyUpper hd.1 ++ ": " ++ hd.2 ++ "\n")) hd.2
      exact hs_left _ (hs_right _ (hs_left _ (hs_refl _)))
    · rw [List.foldl_cons]
      exact ih h' (critStep init hd)

set_option maxRecDepth 100000 in
set_option maxHeartbeats 4000000 in
/-- The counterexample to C8 as stated: the prompt built for the catalog's
`AC-2(A)` sub-requirement of the "Account Management" control contains
neither the parent control's title (the `control_info` parameter is unused
by the builder) nor any "80" percentage-rubric text. -/
theorem c8_counterexample :
    strContains (create_pattern_based_prompt "AC-2(A)" acct_sub acct_control "" "June 01, 2025")
        "Account Management" = false ∧
    strContains (create_pattern_based_prompt "AC-2(A)" acct_sub acct_control "" "June 01, 2025")
        "80" = false := by
  constructor <;> decide

/-- Navigation: anything occurring in the first (fixed-rules) part of the
prompt occurs in the full prompt, whatever the note and criteria branches
contribute. -/
theorem hs_prompt_of_base (sub_id : String) (sub_info : SubInfo) (control_info : ControlInfo)
    (document_text current_date x : String)
    (h : hasSubstr
      ("\nToday's date is " ++ current_date ++ ".\n\nCOMPLIANCE ASSESSMENT for " ++ sub_id ++ ": " ++
        sub_info.title ++ "\n\nSub-requirement definition: " ++ sub_info.definition ++
        "\n\nPATTERN-BASED ASSESSMENT RULES:\nControl Type: " ++
        (determine_evidence_requirements sub_info.definition).type ++ "\nReasoning: " ++
        (determine_evidence_requirements sub_info.definition).reasoning ++
        "\nPolicy Document Maximum Score: " ++
        (determine_evidence_requirements sub_info.definition).policy_max_score ++
        "\nRequired Evidence Types: " ++
        String.intercalate ", " (determine_evidence_requirements sub_info.definition).full_compliance_requires ++
        "\nEvidence Examples: " ++
        (determine_evidence_requirements sub_info.definition).evidence_examples.getD "Various forms of supporting documentation" ++
        "\n\n") x) :
    hasSubstr (create_pattern_based_prompt sub_id sub_info control_info document_text current_date) x := by
  rcases hnote : (determine_evidence_requirements sub_info.definition).assessment_note with _ | note
  · by_cases hcrit : sub_info.assessment_criteria.isEmpty = true
    · simp only [create_pattern_based_prompt, hnote, hcrit, if_true]
      exact hs_right _ (hs_right _ (hs_right _ h))
    · rw [Bool.not_eq_true] at hcrit
      simp only [create_pattern_based_prompt, hnote, hcrit, Bool.false_eq_true, if_false]
      exact hs_right _ (hs_right _ (hs_right _ (hs_right _ (hs_foldl_crit _ (hs_right _ h)))))
  · by_cases hcrit : sub_info.assessment_criteria.isEmpty = true
    · simp only [create_pattern_based_prompt, hnote, hcrit, if_true]
      exact hs_right _ (hs_right _ (hs_right _ (hs_right _ h)))
    · rw [Bool.not_eq_true] at hcrit
      simp only [create_pattern_based_prompt, hnote, hcrit, Bool.false_eq_true, if_false]
      exact hs_right _ (hs_right _ (hs_right _ (hs_right _ (hs_foldl_crit _ (hs_right _ (hs_right _ h))))))

set_option maxHeartbeats 2000000 in
/-- C8 amended: the built prompt contains the sub-requirement's identifier,
title and definition, each assessment criterion's guidance text, and the
document text truncated to its first 8000 characters; moreover the prompt
depends on the document only through that 8000-character prefix.  (It does
not contain the parent control's title, nor a percentage scoring rubric --
see the counterexample.) -/
theorem c8_prompt_amended (sub_id : String) (sub_info : SubInfo) (control_info : ControlInfo)
    (document_text current_date : String) :
    hasSubstr (create_pattern_based_prompt sub_id sub_info control_info document_text current_date) sub_id ∧
    hasSubstr (create_pattern_based_prompt sub_id sub_info control_info document_text current_date) sub_info.title ∧
    hasSubstr (create_pattern_based_prompt sub_id sub_info control_info document_text current_date) sub_info.definition ∧
    (∀ cd ∈ sub_info.assessment_criteria,
      hasSubstr (create_pattern_based_prompt sub_id sub_info control_info document_text current_date) cd.2) ∧
    hasSubstr (create_pattern_based_prompt sub_id sub_info control_info document_text current_date)
      (pyTake 8000 document_text) ∧
    (∀ doc' : String, pyTake 8000 document_text = pyTake 8000 doc' →
      create_pattern_based_prompt sub_id sub_info control_info document_text current_date =
        create_pattern_based_prompt sub_id sub_info control_info doc' current_date) := by
  refine ⟨?_, ?_, ?_, ?_, ?_, ?_⟩
  · apply hs_prompt_of_base
    repeat first
      | (with_reducible exact hs_left _ (hs_refl _))
      | apply hs_right
  · apply hs_prompt_of_base
    repeat first
      | (with_reducible exact hs_left _ (hs_refl _))
      | apply hs_right
  · apply hs_prompt_of_base
    repeat first
      | (with_reducible exact hs_left _ (hs_refl _))
      | apply hs_right
  · intro cd hcd
    have hcrit : sub_info.assessment_criteria.isEmpty = false := by
      rw [← Bool.not_eq_true]
      exact (not_congr List.isEmpty_iff).mpr (List.ne_nil_of_mem hcd)
    rcases hnote : (determine_evidence_requirements sub_info.definition).assessment_note with _ | note <;>
      simp only [create_pattern_based_prompt, hnote, hcrit, Bool.false_eq_true, if_false] <;>
      exact hs_right _ (hs_right _ (hs_right _ (hs_right _ (hs_crit_mem _ _ hcd _))))
  · simp only [create_pattern_based_prompt]
    exact hs_right _ (hs_left _ (hs_refl _))
  · intro doc' hdoc
    unfold create_pattern_based_prompt
    rw [hdoc]

set_option maxRecDepth 100000 in
set_option maxHeartbeats 4000000 in
/-- Witness for C8 amended, instantiated at the catalog's `AC-2(A)` data. -/
theorem c8_prompt_amended_witness :
    ("account_types", "Look for mentions of different user categories, account types, or user groups") ∈ acct_sub.assessment_criteria ∧
    hasSubstr (create_pattern_based_prompt "AC-2(A)" acct_sub acct_control "doc text" "June 01, 2025") "AC-2(A)" ∧
    hasSubstr (create_pattern_based_prompt "AC-2(A)" acct_sub acct_control "doc text" "June 01, 2025")
      "Look for mentions of different user categories, account types, or user groups" ∧
    hasSubstr (create_pattern_based_prompt "AC-2(A)" acct_sub acct_control "doc text" "June 01, 2025")
      (pyTake 8000 "doc text") := by
  have h := c8_prompt_amended "AC-2(A)" acct_sub acct_control "doc text" "June 01, 2025"
  exact ⟨by simp [acct_sub], h.1,
    h.2.2.2.1 ("account_types", "Look for mentions of different user categories, account types, or user groups")
      (by simp [acct_sub]),
    h.2.2.2.2.1⟩

end ComplianceChecker
